import Mathlib

/-!
Verification of the client-side authentication and session lifecycle of the
hospital-registry frontend.  The definitions below are a shallow embedding of
the JavaScript source:

* `authReducer`, `initialState`   — src/frontend/src/contexts/AuthContext.js (authReducer)
* `login`, `registerOp`, `logout`, `loadStoredAuth`, `clearErrorOp`,
  `getCurrentUser`               — the operations of the AuthProvider
* `addResponseInterceptorOnError` — the axios response interceptor (services/api.js)
* `validateForm`, `handleSubmit` — src/frontend/src/pages/RegisterPage.js

Opaque payloads (the user profile returned by the server, bearer tokens and
error messages) are modelled as `String`; the localStorage slot
`hospital_token` and the axios default `Authorization` header are modelled as
`Option String` cells of a `World` record.
-/

/-- The session state held by the reducer: fields `user`, `token`,
`isAuthenticated`, `loading`, `error` of the `initialState` object in
AuthContext.js. -/
structure AuthState where
  user : Option String
  token : Option String
  isAuthenticated : Bool
  loading : Bool
  error : Option String
deriving DecidableEq, Repr

/-- `initialState` of AuthContext.js: everything null, not authenticated,
loading true. -/
def initialState : AuthState :=
  { user := none, token := none, isAuthenticated := false, loading := true, error := none }

/-- The dispatched events.  The seven recognized action types of
`AUTH_ACTIONS` become constructors carrying exactly the payload each case of
the reducer reads; `unknown ty` stands for any action whose `type` string is
not one of the seven (the `default` branch of the switch). -/
inductive AuthAction where
  | loginStart
  | loginSuccess (user token : String)
  | loginFailure (msg : String)
  | logoutAction
  | setLoading (b : Bool)
  | clearError
  | updateUser (user : String)
  | unknown (ty : String)
deriving DecidableEq, Repr

/-- The seven recognized action-type strings of `AUTH_ACTIONS`. -/
def recognizedActionTypes : List String :=
  ["LOGIN_START", "LOGIN_SUCCESS", "LOGIN_FAILURE", "LOGOUT",
   "SET_LOADING", "CLEAR_ERROR", "UPDATE_USER"]

/-- `authReducer` of AuthContext.js, case by case. -/
def authReducer (state : AuthState) (action : AuthAction) : AuthState :=
  match action with
  | .loginStart =>
      { state with loading := true, error := none }
  | .loginSuccess u t =>
      { state with user := some u, token := some t, isAuthenticated := true,
                   loading := false, error := none }
  | .loginFailure m =>
      { state with user := none, token := none, isAuthenticated := false,
                   loading := false, error := some m }
  | .logoutAction =>
      { state with user := none, token := none, isAuthenticated := false,
                   loading := false, error := none }
  | .setLoading b =>
      { state with loading := b }
  | .clearError =>
      { state with error := none }
  | .updateUser u =>
      { state with user := some u }
  | .unknown _ => state

/-- The client-side world: the reducer state, the durable localStorage slot
`hospital_token`, and the axios default `Authorization` header of `authAPI`. -/
structure World where
  state : AuthState
  store : Option String
  header : Option String
deriving DecidableEq, Repr

/-- Outcome of a `POST /auth/login` network call: either the server accepts
and returns `{access_token, user}`, or the call fails with an optional
`error.response.data.detail` (none models a transport failure with no
response). -/
inductive LoginOutcome where
  | ok (accessToken user : String)
  | err (detail : Option String)
deriving DecidableEq, Repr

/-- Outcome of a bearer-authenticated `GET /auth/me` call. -/
inductive MeOutcome where
  | ok (user : String)
  | err
deriving DecidableEq, Repr

/-- Outcome of a `POST /auth/register` call. -/
inductive RegisterOutcome where
  | ok
  | err (detail : Option String)
deriving DecidableEq, Repr

/-- The JavaScript idiom `x?.detail || fallback`: the fallback is used when
the optional chain yields nothing or the message is the empty string (falsy). -/
def jsOrDefault (s : Option String) (fallback : String) : String :=
  match s with
  | some d => if d = "" then fallback else d
  | none => fallback

/-- The `{ success, error }` object returned by `login` / `register`. -/
structure LoginResult where
  success : Bool
  error : Option String
deriving DecidableEq, Repr

/-- The synchronous first half of `login`: `dispatch({type: LOGIN_START})`. -/
def loginStartStep (w : World) : World :=
  { w with state := authReducer w.state .loginStart }

/-- The continuation of `login` once the `POST /auth/login` promise settles:
on success set localStorage, set the default header, dispatch LOGIN_SUCCESS
and return `{success:true}`; on failure dispatch LOGIN_FAILURE with the
server detail or the fallback message and return the same message. -/
def loginResolve (w : World) (o : LoginOutcome) : World × LoginResult :=
  match o with
  | .ok t u =>
      ({ state := authReducer w.state (.loginSuccess u t),
         store := some t, header := some t },
       { success := true, error := none })
  | .err detail =>
      ({ w with state := authReducer w.state
                  (.loginFailure (jsOrDefault detail "Erro ao fazer login")) },
       { success := false, error := some (jsOrDefault detail "Erro ao fazer login") })

/-- `login(email, password)` run to completion with network outcome `o`. -/
def login (w : World) (o : LoginOutcome) : World × LoginResult :=
  loginResolve (loginStartStep w) o

/-- `register(userData)` run to completion: dispatch LOGIN_START, call
`POST /auth/register`; on success auto-login with the same credentials; on
failure dispatch LOGIN_FAILURE with the server detail or fallback. -/
def registerOp (w : World) (ro : RegisterOutcome) (lo : LoginOutcome) : World × LoginResult :=
  let w1 := loginStartStep w
  match ro with
  | .ok =>
      let wr := login w1 lo
      if wr.2.success then (wr.1, { success := true, error := none })
      else (wr.1, { success := false,
                    error := some "Cadastro realizado, mas falha no login automático" })
  | .err detail =>
      ({ w1 with state := authReducer w1.state
                   (.loginFailure (jsOrDefault detail "Erro ao cadastrar usuário")) },
       { success := false, error := some (jsOrDefault detail "Erro ao cadastrar usuário") })

/-- `logout()`: remove the localStorage token, delete the default header,
dispatch LOGOUT.  Purely synchronous. -/
def logout (w : World) : World :=
  { state := authReducer w.state .logoutAction, store := none, header := none }

/-- `clearError()`: dispatch CLEAR_ERROR. -/
def clearErrorOp (w : World) : World :=
  { w with state := authReducer w.state .clearError }

/-- `loadStoredAuth` (the restore-on-start effect): read the stored token; if
present attach it as the default header and call `GET /auth/me` — on success
dispatch LOGIN_SUCCESS with the returned user and the stored token, on any
failure remove the stored token, delete the header and dispatch
SET_LOADING false.  If no token is stored just dispatch SET_LOADING false.
The catch swallows every error, so this never throws to its caller. -/
def loadStoredAuth (w : World) (o : MeOutcome) : World :=
  match w.store with
  | some token =>
      match o with
      | .ok u =>
          { state := authReducer w.state (.loginSuccess u token),
            store := some token, header := some token }
      | .err =>
          { state := authReducer w.state (.setLoading false),
            store := none, header := none }
  | none =>
      { w with state := authReducer w.state (.setLoading false) }

/-- `getCurrentUser()`: call `GET /auth/me`; on success dispatch UPDATE_USER
and return the user, on failure dispatch nothing and return null. -/
def getCurrentUser (w : World) (o : MeOutcome) : World × Option String :=
  match o with
  | .ok u => ({ w with state := authReducer w.state (.updateUser u) }, some u)
  | .err => (w, none)

/-- Worlds reachable from process start (arbitrary persisted store, no
attached header, `initialState`) by complete, sequential runs of the exposed
operations.  A `GET /auth/me` call can succeed only when some credential is
attached to the request — either the localStorage token picked up by the
request interceptor or the default header — hence the guard on `refreshOk`. -/
inductive Reachable : World → Prop where
  | start (store0 : Option String) :
      Reachable { state := initialState, store := store0, header := none }
  | restore (w : World) (o : MeOutcome) :
      Reachable w → Reachable (loadStoredAuth w o)
  | loginStep (w : World) (o : LoginOutcome) :
      Reachable w → Reachable (login w o).1
  | registerStep (w : World) (ro : RegisterOutcome) (lo : LoginOutcome) :
      Reachable w → Reachable (registerOp w ro lo).1
  | logoutStep (w : World) :
      Reachable w → Reachable (logout w)
  | clearErrorStep (w : World) :
      Reachable w → Reachable (clearErrorOp w)
  | refreshOk (w : World) (u : String) :
      Reachable w → (w.store ≠ none ∨ w.header ≠ none) →
      Reachable (getCurrentUser w (.ok u)).1
  | refreshErr (w : World) :
      Reachable w → Reachable (getCurrentUser w .err).1

/-- What the axios response interceptor leaves behind: the localStorage slot,
the default header, whether a navigation to `/login` was signalled, and the
list of actions it dispatched to the session reducer (the source dispatches
none). -/
structure RejectStepResult where
  store : Option String
  header : Option String
  redirectToLogin : Bool
  dispatched : List AuthAction
deriving DecidableEq, Repr

/-- The error branch of `addResponseInterceptor` in services/api.js: if the
response status is 401, remove `hospital_token` from localStorage and, unless
`window.location.pathname` is already `/login`, set `window.location.href` to
`/login`; every error is re-rejected to the caller.  The axios default
`Authorization` header is not touched and nothing is dispatched. -/
def addResponseInterceptorOnError (status : Nat) (store header : Option String)
    (pathname : String) : RejectStepResult :=
  if status = 401 then
    { store := none, header := header,
      redirectToLogin := if pathname = "/login" then false else true,
      dispatched := [] }
  else
    { store := store, header := header, redirectToLogin := false, dispatched := [] }

/-- The fields of the registration form state in RegisterPage.js. -/
structure RegisterForm where
  nome : String
  email : String
  password : String
  confirm_password : String
  role : String
  crm : String
  especialidade : String
deriving DecidableEq, Repr

/-- The JavaScript `trim()`: drop whitespace from both ends of the string.
Implemented structurally over the character list so it evaluates in the
kernel. -/
def jsTrim (s : String) : String :=
  ⟨((s.toList.dropWhile Char.isWhitespace).reverse.dropWhile Char.isWhitespace).reverse⟩

/-- The regex test of RegisterPage.js, one nonspace run, an at sign, a
nonspace run, a dot, a nonspace run, matched anywhere in the string:
search for positions i (the at sign) and j (the dot) with a nonspace
character right before i, only nonspace characters strictly between i and j,
at least one of them, and a nonspace character right after j. -/
def emailPatternTest (s : String) : Bool :=
  let cs := s.toList
  let n := cs.length
  let nonspaceAt := fun (k : Nat) =>
    match cs.get? k with
    | some c => !c.isWhitespace
    | none => false
  (List.range n).any fun i =>
    (List.range n).any fun j =>
      cs.get? i = some '@' && cs.get? j = some '.' &&
      decide (1 ≤ i) && decide (i + 2 ≤ j) && decide (j + 1 < n) &&
      nonspaceAt (i - 1) &&
      ((List.range n).all fun k => !(decide (i < k) && decide (k < j)) || nonspaceAt k) &&
      nonspaceAt (j + 1)

/-- `validateForm` of RegisterPage.js as a field-to-message error map,
entries in source order.  Empty map means validation passed. -/
def validateForm (f : RegisterForm) : List (String × String) :=
  (if jsTrim f.nome = "" then [("nome", "Nome é obrigatório")] else []) ++
  (if jsTrim f.email = "" then [("email", "Email é obrigatório")]
   else if !emailPatternTest f.email then [("email", "Email inválido")] else []) ++
  (if f.password = "" then [("password", "Senha é obrigatória")]
   else if f.password.length < 6 then
     [("password", "Senha deve ter pelo menos 6 caracteres")] else []) ++
  (if f.confirm_password = "" then
     [("confirm_password", "Confirmação de senha é obrigatória")]
   else if f.password ≠ f.confirm_password then
     [("confirm_password", "Senhas não coincidem")] else []) ++
  (if f.role = "doctor" then
     (if jsTrim f.crm = "" then [("crm", "CRM é obrigatório para médicos")] else []) ++
     (if jsTrim f.especialidade = "" then
        [("especialidade", "Especialidade é obrigatória para médicos")] else [])
   else [])

/-- `handleSubmit` of RegisterPage.js: if `validateForm` reports any error the
handler returns before `register` is called, leaving the world untouched;
otherwise it runs `register(formData)`.  The second component records whether
`register` (and hence any network call) was invoked. -/
def handleSubmit (f : RegisterForm) (w : World) (ro : RegisterOutcome)
    (lo : LoginOutcome) : World × Bool :=
  if validateForm f = [] then ((registerOp w ro lo).1, true)
  else (w, false)

/-- C7: when the Credential Verifier accepts the credentials and returns a
token and user, `login` persists the token to the store, attaches it as the
default header, moves to the authenticated state holding that user and token
with no error and loading false, and returns a success indicator. -/
theorem login_success_establishes_session (w : World) (t u : String) :
    login w (.ok t u) =
      ({ state := { user := some u, token := some t, isAuthenticated := true,
                    loading := false, error := none },
         store := some t, header := some t },
       { success := true, error := none }) := rfl

/-- C8: `logout` is idempotent — running it twice from any world gives
exactly the world of running it once — and it always succeeds, erasing the
store entry, detaching the header and clearing user, token and error. -/
theorem logout_idempotent (w : World) :
    logout (logout w) = logout w ∧
    logout w = { state := { user := none, token := none, isAuthenticated := false,
                            loading := false, error := none },
                 store := none, header := none } :=
  ⟨rfl, rfl⟩

/-- C5: when a stored token exists but the who-am-I call fails, the restore
step erases the store entry, detaches the header, and lands in the
unauthenticated state with loading false and no error message; being modelled
as a total function mirrors the catch that swallows every error. -/
theorem restore_failure_cleans_session (t : String) :
    loadStoredAuth { state := initialState, store := some t, header := none } .err =
      { state := { user := none, token := none, isAuthenticated := false,
                   loading := false, error := none },
        store := none, header := none } := rfl

/-- C9: the reducer is total — for any state, an action whose type string is
not one of the seven recognized action types falls to the default branch and
returns the state unchanged. -/
theorem authReducer_unrecognized_action_identity (s : AuthState) (ty : String)
    (h : ty ∉ recognizedActionTypes) :
    authReducer s (.unknown ty) = s := rfl

/-- Witness for C9 at the initial state and the unrecognized type RESET. -/
theorem authReducer_unrecognized_action_identity_witness :
    "RESET" ∉ recognizedActionTypes ∧
      authReducer initialState (.unknown "RESET") = initialState :=
  ⟨by decide, authReducer_unrecognized_action_identity initialState "RESET" (by decide)⟩

/-- C2 (amended): a logout issued while a login call is in flight does not
win — if the deferred login resolution later arrives successfully, it is
applied as-is (there is no generation counter), re-persisting the token and
resurrecting the authenticated state. -/
theorem stale_login_resurrects_authenticated (w : World) (t u : String) :
    (loginResolve (logout (loginStartStep w)) (.ok t u)).1 =
      { state := { user := some u, token := some t, isAuthenticated := true,
                   loading := false, error := none },
        store := some t, header := some t } := rfl

/-- Counterexample for C2 as stated: start a login, run logout while it is in
flight, then let the login resolve successfully — the final state is
authenticated with the stale user and token, not unauthenticated. -/
theorem stale_login_after_logout_counterexample :
    (loginResolve (logout (loginStartStep
        { state := initialState, store := none, header := none }))
        (.ok "tok" "alice")).1.state.isAuthenticated = true ∧
    (loginResolve (logout (loginStartStep
        { state := initialState, store := none, header := none }))
        (.ok "tok" "alice")).1.state.user = some "alice" ∧
    (loginResolve (logout (loginStartStep
        { state := initialState, store := none, header := none }))
        (.ok "tok" "alice")).1.store = some "tok" :=
  ⟨rfl, rfl, rfl⟩

/-- C3 (amended): on a 401 response the interceptor clears the stored token
and signals a redirect to the login surface exactly when the pathname is not
already /login; it leaves the attached default header in place and dispatches
no session transition (in particular it never sets the error field). -/
theorem interceptor_on_401_clears_store_keeps_header (store header : Option String)
    (pathname : String) :
    (addResponseInterceptorOnError 401 store header pathname).store = none ∧
    (addResponseInterceptorOnError 401 store header pathname).header = header ∧
    ((addResponseInterceptorOnError 401 store header pathname).redirectToLogin = true ↔
      pathname ≠ "/login") ∧
    (addResponseInterceptorOnError 401 store header pathname).dispatched = [] := by
  by_cases hp : pathname = "/login" <;>
    simp [addResponseInterceptorOnError, hp]

/-- Counterexample for C3 as stated: a 401 received away from /login leaves
the attached bearer header in place (the credential is not detached) and
dispatches nothing to the session reducer (no transition to the
unauthenticated state happens in this step). -/
theorem interceptor_keeps_header_counterexample :
    (addResponseInterceptorOnError 401 (some "tok") (some "tok") "/dashboard").header
        = some "tok" ∧
    (addResponseInterceptorOnError 401 (some "tok") (some "tok") "/dashboard").dispatched
        = [] := by
  exact ⟨by decide, by decide⟩

/-- C6: a failing login lands in the unauthenticated state with every session
field cleared and the error field set to the server-supplied detail, or to the
generic fallback when the server supplied none (transport failure) or an
empty message; the returned failure indicator carries the same message. -/
theorem login_failure_sets_error (w : World) (detail : Option String) :
    (login w (.err detail)).1.state =
      { user := none, token := none, isAuthenticated := false, loading := false,
        error := some (jsOrDefault detail "Erro ao fazer login") } ∧
    (login w (.err detail)).2 =
      { success := false, error := some (jsOrDefault detail "Erro ao fazer login") } ∧
    (detail = none → jsOrDefault detail "Erro ao fazer login" = "Erro ao fazer login") ∧
    (∀ d : String, detail = some d → d ≠ "" →
      jsOrDefault detail "Erro ao fazer login" = d) := by
  refine ⟨rfl, rfl, ?_, ?_⟩
  · intro h; subst h; rfl
  · intro d h hne; subst h; simp [jsOrDefault, hne]

/-- Witness for C6 at the scenario of the spec: a credential failure with
detail Invalid credentials surfaces exactly that message. -/
theorem login_failure_sets_error_witness :
    (login { state := initialState, store := none, header := none }
       (.err (some "Invalid credentials"))).1.state.error = some "Invalid credentials" ∧
    (login { state := initialState, store := none, header := none }
       (.err (some "Invalid credentials"))).2.success = false := by
  have h := login_failure_sets_error
      { state := initialState, store := none, header := none } (some "Invalid credentials")
  have hmsg := h.2.2.2 "Invalid credentials" rfl (by decide)
  rw [h.1, h.2.1, hmsg]
  exact ⟨rfl, rfl⟩

/-- The part of the spec's session invariant that the code maintains: the
token field is present exactly when the authenticated flag is set, and an
authenticated state always carries a user. -/
def stateInvariant (s : AuthState) : Prop :=
  (s.token.isSome = s.isAuthenticated) ∧ (s.isAuthenticated = true → s.user.isSome = true)

/-- Every single dispatched action preserves `stateInvariant`. -/
theorem authReducer_preserves_invariant (s : AuthState) (a : AuthAction)
    (h : stateInvariant s) : stateInvariant (authReducer s a) := by
  cases a <;> simp_all [authReducer, stateInvariant]

/-- C1 (amended): for every reachable world, the token field is set iff the
authenticated flag is true, and whenever authenticated the user field is set.
The converse direction for the user field fails, see the counterexample. -/
theorem reachable_token_iff_authenticated (w : World) (h : Reachable w) :
    stateInvariant w.state := by
  induction h with
  | start store0 => exact ⟨rfl, by simp [initialState]⟩
  | restore w o hw ih =>
      obtain ⟨s, st, hd⟩ := w
      cases st with
      | none => exact authReducer_preserves_invariant _ _ ih
      | some t =>
          cases o with
          | ok u => exact authReducer_preserves_invariant _ _ ih
          | err => exact authReducer_preserves_invariant _ _ ih
  | loginStep w o hw ih =>
      cases o with
      | ok t u =>
          exact authReducer_preserves_invariant _ _
            (authReducer_preserves_invariant _ _ ih)
      | err d =>
          exact authReducer_preserves_invariant _ _
            (authReducer_preserves_invariant _ _ ih)
  | registerStep w ro lo hw ih =>
      cases ro with
      | ok =>
          cases lo with
          | ok t u =>
              exact authReducer_preserves_invariant _ _
                (authReducer_preserves_invariant _ _
                  (authReducer_preserves_invariant _ _ ih))
          | err d =>
              exact authReducer_preserves_invariant _ _
                (authReducer_preserves_invariant _ _
                  (authReducer_preserves_invariant _ _ ih))
      | err d =>
          exact authReducer_preserves_invariant _ _
            (authReducer_preserves_invariant _ _ ih)
  | logoutStep w hw ih => exact authReducer_preserves_invariant _ _ ih
  | clearErrorStep w hw ih => exact authReducer_preserves_invariant _ _ ih
  | refreshOk w u hw hcred ih => exact authReducer_preserves_invariant _ _ ih
  | refreshErr w hw ih => exact ih

/-- Witness for C1 (amended) at the initial world. -/
theorem reachable_token_iff_authenticated_witness :
    stateInvariant ({ state := initialState, store := none, header := none } : World).state :=
  reachable_token_iff_authenticated _ (Reachable.start none)

/-- The world reached by: process start with a stored valid token t0; restore
succeeds with user alice; a failing login attempt clears user and token in
the reducer but leaves localStorage and the default header holding t0; then
getCurrentUser succeeds with that still-attached token and dispatches
UPDATE_USER. -/
def staleRefreshWorld : World :=
  (getCurrentUser
    (login
      (loadStoredAuth { state := initialState, store := some "t0", header := none }
        (.ok "alice"))
      (.err (some "Invalid credentials"))).1
    (.ok "alice")).1

/-- Counterexample for C1 as stated: a reachable world whose user field is
set while the token field is unset and the authenticated flag is false, so
token-set iff user-set iff authenticated fails. -/
theorem reachable_invariant_counterexample :
    Reachable staleRefreshWorld ∧
    staleRefreshWorld.state.user = some "alice" ∧
    staleRefreshWorld.state.token = none ∧
    staleRefreshWorld.state.isAuthenticated = false ∧
    ¬((staleRefreshWorld.state.token.isSome = staleRefreshWorld.state.user.isSome) ∧
      (staleRefreshWorld.state.user.isSome = staleRefreshWorld.state.isAuthenticated)) := by
  refine ⟨?_, by decide, by decide, by decide, by decide⟩
  exact Reachable.refreshOk _ "alice"
    (Reachable.loginStep _ _
      (Reachable.restore _ _ (Reachable.start (some "t0"))))
    (Or.inl (by decide))

/-- C4: a registration form with the doctor role and a blank CRM or blank
specialty fails client-side validation with a field-level error on the
missing field, and the submit handler returns before `register` runs — no
network call is made and the world (session state included) is unchanged. -/
theorem register_doctor_missing_fields_fail_fast (f : RegisterForm) (w : World)
    (ro : RegisterOutcome) (lo : LoginOutcome)
    (hrole : f.role = "doctor")
    (hmiss : jsTrim f.crm = "" ∨ jsTrim f.especialidade = "") :
    (jsTrim f.crm = "" → ("crm", "CRM é obrigatório para médicos") ∈ validateForm f) ∧
    (jsTrim f.especialidade = "" →
      ("especialidade", "Especialidade é obrigatória para médicos") ∈ validateForm f) ∧
    handleSubmit f w ro lo = (w, false) := by
  have hcrm : jsTrim f.crm = "" →
      ("crm", "CRM é obrigatório para médicos") ∈ validateForm f := by
    intro hc
    simp [validateForm, hrole, hc]
  have hesp : jsTrim f.especialidade = "" →
      ("especialidade", "Especialidade é obrigatória para médicos") ∈ validateForm f := by
    intro he
    simp [validateForm, hrole, he]
  refine ⟨hcrm, hesp, ?_⟩
  have hne : validateForm f ≠ [] := by
    rcases hmiss with h | h
    · exact List.ne_nil_of_mem (hcrm h)
    · exact List.ne_nil_of_mem (hesp h)
  simp [handleSubmit, hne]

/-- Witness for C4 at the scenario of the spec: doctor role with empty CRM. -/
theorem register_doctor_missing_fields_fail_fast_witness :
    ("crm", "CRM é obrigatório para médicos") ∈ validateForm
      { nome := "Ana Silva", email := "a@h.com", password := "secret123",
        confirm_password := "secret123", role := "doctor", crm := "",
        especialidade := "Cardiologia" } ∧
    handleSubmit
      { nome := "Ana Silva", email := "a@h.com", password := "secret123",
        confirm_password := "secret123", role := "doctor", crm := "",
        especialidade := "Cardiologia" }
      { state := initialState, store := none, header := none } (.err none) (.err none) =
      ({ state := initialState, store := none, header := none }, false) := by
  have h := register_doctor_missing_fields_fail_fast
    { nome := "Ana Silva", email := "a@h.com", password := "secret123",
      confirm_password := "secret123", role := "doctor", crm := "",
      especialidade := "Cardiologia" }
    { state := initialState, store := none, header := none }
    (.err none) (.err none) rfl (Or.inl (by decide))
  exact ⟨h.1 (by decide), h.2.2⟩

/-- C10: a submission whose password is shorter than six characters, or
differs from the confirmation field, is rejected client-side with a
field-level error on that field, and the submit handler returns before
`register` runs — no network request is made. -/
theorem password_validation_blocks_submit (f : RegisterForm) (w : World)
    (ro : RegisterOutcome) (lo : LoginOutcome)
    (h : f.password.length < 6 ∨ f.password ≠ f.confirm_password) :
    (f.password.length < 6 → ∃ m, ("password", m) ∈ validateForm f) ∧
    (f.password ≠ f.confirm_password →
      ∃ m, ("confirm_password", m) ∈ validateForm f) ∧
    handleSubmit f w ro lo = (w, false) := by
  have hpw : f.password.length < 6 → ∃ m, ("password", m) ∈ validateForm f := by
    intro hlt
    by_cases hemp : f.password = ""
    · exact ⟨"Senha é obrigatória", by simp [validateForm, hemp]⟩
    · exact ⟨"Senha deve ter pelo menos 6 caracteres", by simp [validateForm, hemp, hlt]⟩
  have hcp : f.password ≠ f.confirm_password →
      ∃ m, ("confirm_password", m) ∈ validateForm f := by
    intro hneq
    by_cases hemp : f.confirm_password = ""
    · exact ⟨"Confirmação de senha é obrigatória", by simp [validateForm, hemp]⟩
    · exact ⟨"Senhas não coincidem", by simp [validateForm, hemp, hneq]⟩
  refine ⟨hpw, hcp, ?_⟩
  have hne : validateForm f ≠ [] := by
    rcases h with h | h
    · obtain ⟨m, hm⟩ := hpw h
      exact List.ne_nil_of_mem hm
    · obtain ⟨m, hm⟩ := hcp h
      exact List.ne_nil_of_mem hm
  simp [handleSubmit, hne]

/-- Witness for C10: a three-character password is rejected and no register
call happens. -/
theorem password_validation_blocks_submit_witness :
    (∃ m, ("password", m) ∈ validateForm
      { nome := "Ana Silva", email := "a@h.com", password := "abc",
        confirm_password := "abc", role := "user", crm := "", especialidade := "" }) ∧
    handleSubmit
      { nome := "Ana Silva", email := "a@h.com", password := "abc",
        confirm_password := "abc", role := "user", crm := "", especialidade := "" }
      { state := initialState, store := none, header := none } (.err none) (.err none) =
      ({ state := initialState, store := none, header := none }, false) := by
  have h := password_validation_blocks_submit
    { nome := "Ana Silva", email := "a@h.com", password := "abc",
      confirm_password := "abc", role := "user", crm := "", especialidade := "" }
    { state := initialState, store := none, header := none }
    (.err none) (.err none) (Or.inl (by decide))
  exact ⟨h.1 (by decide), h.2.2⟩
